import Mathlib

/-!
Shallow embedding of `crates/biome_plugin_loader/src/analyzer_grit_plugin.rs`:
the Grit analyzer-plugin loader, evaluator, and the `register_diagnostic`
builtin.  External collaborator types (the Grit pattern engine's values, the
host diagnostic type) are modelled by the narrow interface this source file
uses.
-/

namespace BiomeGrit

/-- Byte range of text (`biome_rowan::TextRange`); `stop` is the exclusive end
offset (named `end` in the source, a Lean keyword). -/
structure TextRange where
  start : Nat
  stop : Nat
deriving DecidableEq

/-- `TextRange::new(start, end)`. -/
def TextRange.new (start stop : Nat) : TextRange :=
  ⟨start, stop⟩

/-- Byte range as emitted by the Grit engine (`grit_util::Range`); only the
byte offsets are read by this code. -/
structure GritRange where
  start_byte : Nat
  end_byte : Nat
deriving DecidableEq

/-- Modelled from the spec: diagnostic severity.  `RuleDiagnostic` lives in
`biome_analyze`, outside this file; the spec assigns error severity to
plainly constructed diagnostics and verbose/informational severity to those
marked with `.verbose()`. -/
inductive Severity where
  | error
  | information
deriving DecidableEq

/-- Modelled from the spec: the diagnostic unit returned to the host —
category tag, optional byte-range position, message text, and
severity/verbosity (rich-text rendering is the host's concern; the plain
text of the markup is kept). -/
structure RuleDiagnostic where
  category : String
  span : Option TextRange
  message : String
  severity : Severity
  isVerbose : Bool
deriving DecidableEq

/-- `RuleDiagnostic::new(category, span, message)`. -/
def RuleDiagnostic.new (category : String) (span : Option TextRange)
    (message : String) : RuleDiagnostic :=
  { category := category, span := span, message := message,
    severity := Severity.error, isVerbose := false }

/-- `.verbose()`: marks the diagnostic verbose/informational. -/
def RuleDiagnostic.verbose (d : RuleDiagnostic) : RuleDiagnostic :=
  { d with severity := Severity.information, isVerbose := true }

/-- `grit_util::error::GritPatternError`, modelled by its display text. -/
structure GritPatternError where
  message : String
deriving DecidableEq

/-- `GritPatternError::new(message)`. -/
def GritPatternError.new (message : String) : GritPatternError :=
  ⟨message⟩

/-- A target AST node, as used here: `text_trimmed_range()` is its byte span
excluding surrounding insignificant trivia. -/
structure GritTargetNode where
  text_trimmed_range : TextRange
deriving DecidableEq

/-- A Grit binding (`GritBinding`), modelled by the two accessors this code
uses: `as_node()` and `text(lang)`. -/
structure GritBinding where
  as_node : Option GritTargetNode
  text : Except GritPatternError String

/-- A resolved source-text snippet, modelled by the one accessor this code
uses: `text(files, lang)`. -/
structure GritSnippet where
  text : Except GritPatternError String

/-- A Grit constant, modelled by its `to_string()` form. -/
structure GritConstant where
  display : String

/-- `GritResolvedPattern` (`grit_pattern_matcher::pattern::ResolvedPattern`),
restricted to the variants this code inspects; every other variant (lists,
maps, files) is collapsed into `Other`, which carries no binding. -/
inductive GritResolvedPattern where
  | Constant (constant : GritConstant)
  | Snippets (snippets : List GritSnippet)
  | Binding (bindings : List GritBinding)
  | Other

/-- `ResolvedPattern::get_last_binding`: the last binding when the value is a
binding list, `None` otherwise. -/
def GritResolvedPattern.get_last_binding : GritResolvedPattern → Option GritBinding
  | .Binding bindings => bindings.getLast?
  | _ => none

/-- An unresolved Grit pattern.  Modelled from the spec: argument resolution
is delegated entirely to the pattern engine's resolution primitives, which
live outside this repository, so a pattern is represented by what resolving
it against the current execution state yields. -/
structure GritPattern where
  resolve : Except GritPatternError GritResolvedPattern

/-- `GritResolvedPattern::from_patterns`: resolve each present argument,
propagating the first resolution error.  Modelled from the spec: the
resolution primitive itself is the external engine's. -/
def GritResolvedPattern.from_patterns (args : List (Option GritPattern)) :
    Except GritPatternError (List (Option GritResolvedPattern)) :=
  args.mapM fun arg =>
    match arg with
    | none => Except.ok none
    | some p => p.resolve.map some

/-- The `try_fold` in `register_diagnostic`'s snippet tier: concatenate the
snippets' texts starting from the empty string, propagating the first
failure (the source's `is_empty` test only avoids a clone; when the
accumulator is empty, returning the snippet text equals appending it). -/
def snippets_try_fold (snippets : List GritSnippet) :
    Except GritPatternError String :=
  snippets.foldlM (fun text snippet =>
    snippet.text.map fun snippet_text =>
      if text.isEmpty then snippet_text else text ++ snippet_text) ""

/-- The message `match` in `register_diagnostic`, before the
`"(no message)"` default is applied. -/
def register_diagnostic_message : GritResolvedPattern → Option String
  | .Constant constant => some constant.display
  | .Snippets snippets => (snippets_try_fold snippets).toOption
  | resolved_pattern =>
      resolved_pattern.get_last_binding.bind fun binding => binding.text.toOption

/-- The arity-error value in `register_diagnostic`. -/
def register_diagnostic_arity_error : GritPatternError :=
  GritPatternError.new "register_diagnostic() takes 2 or 5 arguments: span and message, and optional fixer_description, category and applicability"

/-- The tail of `register_diagnostic` after the arity match: resolve the span
and the message, append one diagnostic to the context's collection, return
the (resolved) span argument. -/
def register_diagnostic_emit (span_node message : GritResolvedPattern)
    (context_diagnostics : List RuleDiagnostic) :
    Except GritPatternError (GritResolvedPattern × List RuleDiagnostic) :=
  let span := (span_node.get_last_binding.bind GritBinding.as_node).map
    GritTargetNode.text_trimmed_range
  let message_text := (register_diagnostic_message message).getD "(no message)"
  Except.ok (span_node,
    context_diagnostics ++ [RuleDiagnostic.new "plugin" span message_text])

/-- The `register_diagnostic` builtin.  The execution context's diagnostic
collection (which `context.add_diagnostic` pushes into) is passed and
returned explicitly. -/
def register_diagnostic (args : List (Option GritPattern))
    (context_diagnostics : List RuleDiagnostic) :
    Except GritPatternError (GritResolvedPattern × List RuleDiagnostic) :=
  match GritResolvedPattern.from_patterns args with
  | .error e => .error e
  | .ok resolved =>
    match resolved with
    | [some span_node, some message, none, none, none] =>
        register_diagnostic_emit span_node message context_diagnostics
    | [some span_node, some message, some _, some _, some _] =>
        register_diagnostic_emit span_node message context_diagnostics
    | _ => .error register_diagnostic_arity_error

/-- One engine log entry: optional byte range and message. -/
structure GritLog where
  range : Option GritRange
  message : String

/-- The engine's execution result: ordered logs and ordered registered
diagnostics.  Modelled from the spec: the engine's `execute` lives in
`biome_grit_patterns`, outside this file. -/
structure GritQueryResult where
  logs : List GritLog
  diagnostics : List RuleDiagnostic

/-- The host's parse handle (`biome_parser::AnyParse`), opaque to this code. -/
structure AnyParse where
  id : Nat

/-- `GritTargetFile { parse, path }`. -/
structure GritTargetFile where
  parse : AnyParse
  path : String

/-- A compiled Grit query: its optional name and its `execute` behaviour.
Modelled from the spec: compilation and execution belong to the external
pattern engine. -/
structure GritQuery where
  name : Option String
  execute : GritTargetFile → Except GritPatternError GritQueryResult

/-- `AnalyzerGritPlugin { grit_query }` (the `Rc` is dropped: the query is
immutable and shared). -/
structure AnalyzerGritPlugin where
  grit_query : GritQuery

/-- `from_grit_range`: identity mapping of the start and end byte offsets. -/
def from_grit_range (range : GritRange) : TextRange :=
  TextRange.new range.start_byte range.end_byte

/-- `AnalyzerPlugin::evaluate` for `AnalyzerGritPlugin`.  The `markup!`
messages are kept as their plain text. -/
def AnalyzerGritPlugin.evaluate (self : AnalyzerGritPlugin) (root : AnyParse)
    (path : String) : List RuleDiagnostic :=
  let name := self.grit_query.name.getD "anonymous"
  let file : GritTargetFile := { parse := root, path := path }
  match self.grit_query.execute file with
  | .ok result =>
      result.logs.map (fun log =>
        (RuleDiagnostic.new "plugin" (log.range.map from_grit_range)
          (name ++ " logged: " ++ log.message)).verbose)
      ++ result.diagnostics
  | .error error =>
      [RuleDiagnostic.new "plugin" none
        (name ++ " errored: " ++ error.message)]

/-- `GritTargetLanguage`: the engine's target-language selector. -/
inductive GritTargetLanguage where
  | JsTargetLanguage
  | CssTargetLanguage
deriving DecidableEq

/-- A builtin-table entry (`BuiltInFunction::new(..).as_predicate()`). -/
structure BuiltInFunction where
  name : String
  params : List String
  func : List (Option GritPattern) → List RuleDiagnostic →
    Except GritPatternError (GritResolvedPattern × List RuleDiagnostic)
  as_predicate : Bool

/-- The argument record `load` hands to the external `compile_pattern`. -/
structure CompileArgs where
  source : String
  path : Option String
  lang : GritTargetLanguage
  builtins : List BuiltInFunction

/-- `PluginDiagnostic`: the error type of `load` (the `From` conversions of
the `?` operator become the two constructors). -/
inductive PluginDiagnostic where
  | IoError (message : String)
  | CompileError (message : String)

/-- The filesystem collaborator: `read_file_from_path`. -/
structure FileSystem where
  read_file_from_path : String → Except String String

/-- The exact compile request `load` builds: the raw source, the originating
path, the hardcoded JS target language (a `TODO` comment in the source says
it should be determined dynamically), and the one-entry builtin table. -/
def load_compile_request (source : String) (path : String) : CompileArgs :=
  { source := source,
    path := some path,
    lang := GritTargetLanguage.JsTargetLanguage,
    builtins := [{
      name := "register_diagnostic",
      params := ["span", "message", "fixer_description", "category", "applicability"],
      func := register_diagnostic,
      as_predicate := true }] }

/-- `AnalyzerGritPlugin::load`, with the external `compile_pattern`
collaborator passed explicitly. -/
def AnalyzerGritPlugin.load
    (compile_pattern : CompileArgs → Except String GritQuery)
    (fs : FileSystem) (path : String) :
    Except PluginDiagnostic AnalyzerGritPlugin :=
  match fs.read_file_from_path path with
  | .error e => .error (PluginDiagnostic.IoError e)
  | .ok source =>
    match compile_pattern (load_compile_request source path) with
    | .error e => .error (PluginDiagnostic.CompileError e)
    | .ok query => .ok { grit_query := query }

/-- Modelled from the spec's words, for refinement comparison: message tier 1,
"a literal constant value resolves to its string form". -/
def spec_message_tier1 : GritResolvedPattern → Option String
  | .Constant constant => some constant.display
  | _ => none

/-- Modelled from the spec's words, for refinement comparison: message tier 2,
"a list of source-text snippets resolves to the left-fold concatenation of
their texts starting from the empty string", failing when any snippet's
text cannot be resolved. -/
def spec_message_tier2 : GritResolvedPattern → Option String
  | .Snippets snippets =>
      (snippets.foldlM (fun (text : String) (snippet : GritSnippet) =>
        snippet.text.map fun snippet_text => text ++ snippet_text) "").toOption
  | _ => none

/-- Modelled from the spec's words, for refinement comparison: message tier 3,
"the textual content of the value's last bound reference, if resolvable". -/
def spec_message_tier3 (value : GritResolvedPattern) : Option String :=
  value.get_last_binding.bind fun binding => binding.text.toOption

/-- Modelled from the spec's words, for refinement comparison: the ordered
fallback chain, first success wins, defaulting to `"(no message)"`. -/
def spec_resolve_message (value : GritResolvedPattern) : String :=
  (((spec_message_tier1 value).orElse fun _ => spec_message_tier2 value).orElse
    (fun _ => spec_message_tier3 value)).getD "(no message)"

/-- Concrete fixture: an AST node with trimmed byte range `[10, 15)`. -/
def node_10_15 : GritTargetNode :=
  ⟨TextRange.new 10 15⟩

/-- Concrete fixture: a binding bound to `node_10_15`. -/
def binding_node : GritBinding :=
  ⟨some node_10_15, Except.ok "node text"⟩

/-- Concrete fixture: a span value whose last binding is `binding_node`. -/
def span_value : GritResolvedPattern :=
  GritResolvedPattern.Binding [binding_node]

/-- Concrete fixture: a constant message value. -/
def message_value : GritResolvedPattern :=
  GritResolvedPattern.Constant ⟨"bad pattern"⟩

/-- Concrete fixture: a pattern that resolves to the given value. -/
def pat (value : GritResolvedPattern) : GritPattern :=
  ⟨Except.ok value⟩

/-- Concrete fixture: a two-argument call shape (span and message present). -/
def args_two : List (Option GritPattern) :=
  [some (pat span_value), some (pat message_value), none, none, none]

/-- Concrete fixture: an invalid three-argument call shape. -/
def args_three : List (Option GritPattern) :=
  [some (pat span_value), some (pat message_value), some (pat message_value),
    none, none]

/-- Concrete fixture: one log with a range, one registered diagnostic. -/
def result_one_log : GritQueryResult :=
  { logs := [{ range := some ⟨10, 15⟩, message := "found it" }],
    diagnostics := [RuleDiagnostic.new "plugin" (some (TextRange.new 3 7)) "bad pattern"] }

/-- Concrete fixture: one log without a range, no registered diagnostics. -/
def result_no_range : GritQueryResult :=
  { logs := [{ range := none, message := "found it" }], diagnostics := [] }

/-- Concrete fixture: a named query whose execution yields `result_one_log`. -/
def query_ok : GritQuery :=
  { name := some "no-foo", execute := fun _ => Except.ok result_one_log }

/-- Concrete fixture: an anonymous query whose execution yields
`result_one_log`. -/
def query_anon : GritQuery :=
  { name := none, execute := fun _ => Except.ok result_one_log }

/-- Concrete fixture: an anonymous query whose execution yields
`result_no_range`. -/
def query_no_range : GritQuery :=
  { name := none, execute := fun _ => Except.ok result_no_range }

/-- Concrete fixture: an anonymous query whose execution fails. -/
def query_err : GritQuery :=
  { name := none, execute := fun _ => Except.error ⟨"syntax error at line 4"⟩ }

/-- Concrete fixture: a parse handle. -/
def root0 : AnyParse :=
  ⟨0⟩

/-- Concrete fixture: a filesystem on which every read fails. -/
def fs_bad : FileSystem :=
  ⟨fun _ => Except.error "file not found"⟩

/-- Concrete fixture: a filesystem on which every read succeeds. -/
def fs_good : FileSystem :=
  ⟨fun _ => Except.ok "plugin source"⟩

/-- Concrete fixture: a compiler that always fails. -/
def compile_fail : CompileArgs → Except String GritQuery :=
  fun _ => Except.error "parse error"

/-- Helper: `Except.ok` bound into a continuation reduces to the
continuation. -/
theorem except_ok_bind {ε α β : Type} (a : α) (f : α → Except ε β) :
    (Except.ok a >>= f : Except ε β) = f a :=
  rfl

/-- Helper: the source's `try_fold` step (which skips appending onto an empty
accumulator) computes the same fold as plain left concatenation. -/
theorem snippets_fold_eq_spec_fold (snippets : List GritSnippet) :
    ∀ acc : String,
      snippets.foldlM (fun text snippet =>
        snippet.text.map fun snippet_text =>
          if text.isEmpty then snippet_text else text ++ snippet_text) acc =
      snippets.foldlM (fun (text : String) (snippet : GritSnippet) =>
        snippet.text.map fun snippet_text => text ++ snippet_text) acc := by
  induction snippets with
  | nil => intro acc; rfl
  | cons s rest ih =>
    intro acc
    simp only [List.foldlM_cons]
    cases hs : s.text with
    | error e => rfl
    | ok t =>
      cases hacc : acc.isEmpty with
      | true =>
        rw [(String.isEmpty_iff acc).mp hacc]
        exact ih t
      | false =>
        exact ih (acc ++ t)

/-- C4: in `register_diagnostic`, the message is resolved by the ordered
fallback chain — (1) a literal constant's string form; (2) the left-fold
concatenation of a snippet list's texts from the empty string, the tier
failing when any snippet text is unresolvable; (3) the text of the value's
last bound reference, if resolvable; (4) the literal `"(no message)"`. -/
theorem register_diagnostic_message_fallback_chain (value : GritResolvedPattern) :
    (register_diagnostic_message value).getD "(no message)" =
      spec_resolve_message value := by
  cases value with
  | Constant constant => rfl
  | Binding bindings => rfl
  | Other => rfl
  | Snippets snippets =>
    show (snippets_try_fold snippets).toOption.getD "(no message)" = _
    rw [show snippets_try_fold snippets =
        snippets.foldlM (fun (text : String) (snippet : GritSnippet) =>
          snippet.text.map fun snippet_text => text ++ snippet_text) "" from
      snippets_fold_eq_spec_fold snippets ""]
    cases ho : (snippets.foldlM (fun (text : String) (snippet : GritSnippet) =>
        snippet.text.map fun snippet_text => text ++ snippet_text) "").toOption with
    | none =>
      simp [spec_resolve_message, spec_message_tier1, spec_message_tier2,
        spec_message_tier3, GritResolvedPattern.get_last_binding, ho]
    | some t =>
      simp [spec_resolve_message, spec_message_tier1, spec_message_tier2,
        spec_message_tier3, GritResolvedPattern.get_last_binding, ho]

/-- C1: when `execute` succeeds, `evaluate` returns the log-derived
diagnostics first, in engine order, followed by the registered diagnostics
in registration order — exactly `N + M` diagnostics, concatenated with no
reordering and no deduplication. -/
theorem evaluate_returns_logs_then_registered
    (q : GritQuery) (root : AnyParse) (path : String) (result : GritQueryResult)
    (h : q.execute { parse := root, path := path } = Except.ok result) :
    AnalyzerGritPlugin.evaluate ⟨q⟩ root path =
      result.logs.map (fun log =>
        (RuleDiagnostic.new "plugin" (log.range.map from_grit_range)
          ((q.name.getD "anonymous") ++ " logged: " ++ log.message)).verbose)
      ++ result.diagnostics ∧
    (AnalyzerGritPlugin.evaluate ⟨q⟩ root path).length =
      result.logs.length + result.diagnostics.length := by
  constructor
  · simp [AnalyzerGritPlugin.evaluate, h]
  · simp [AnalyzerGritPlugin.evaluate, h]

/-- Witness for C1 on a concrete query with one log and one registered
diagnostic. -/
theorem evaluate_returns_logs_then_registered_witness :
    query_ok.execute { parse := root0, path := "file.js" } = Except.ok result_one_log ∧
    (AnalyzerGritPlugin.evaluate ⟨query_ok⟩ root0 "file.js" =
      result_one_log.logs.map (fun log =>
        (RuleDiagnostic.new "plugin" (log.range.map from_grit_range)
          ((query_ok.name.getD "anonymous") ++ " logged: " ++ log.message)).verbose)
      ++ result_one_log.diagnostics ∧
    (AnalyzerGritPlugin.evaluate ⟨query_ok⟩ root0 "file.js").length =
      result_one_log.logs.length + result_one_log.diagnostics.length) :=
  ⟨rfl, evaluate_returns_logs_then_registered query_ok root0 "file.js" result_one_log rfl⟩

/-- C3: when `execute` reports a pattern-evaluation error, `evaluate` returns
exactly one diagnostic — category `"plugin"`, no position, error severity,
message `"<name> errored: <error text>"` — and any diagnostics registered
during the aborted run are discarded (the failure carries none through). -/
theorem evaluate_failure_single_error_diagnostic
    (q : GritQuery) (root : AnyParse) (path : String) (err : GritPatternError)
    (h : q.execute { parse := root, path := path } = Except.error err) :
    AnalyzerGritPlugin.evaluate ⟨q⟩ root path =
      [{ category := "plugin", span := none,
         message := (q.name.getD "anonymous") ++ " errored: " ++ err.message,
         severity := Severity.error, isVerbose := false }] := by
  simp [AnalyzerGritPlugin.evaluate, h, RuleDiagnostic.new]

/-- Witness for C3 on a concrete query failing with
`"syntax error at line 4"`. -/
theorem evaluate_failure_single_error_diagnostic_witness :
    query_err.execute { parse := root0, path := "file.js" } =
      Except.error ⟨"syntax error at line 4"⟩ ∧
    AnalyzerGritPlugin.evaluate ⟨query_err⟩ root0 "file.js" =
      [{ category := "plugin", span := none,
         message := (query_err.name.getD "anonymous") ++ " errored: " ++
           GritPatternError.message ⟨"syntax error at line 4"⟩,
         severity := Severity.error, isVerbose := false }] :=
  ⟨rfl, evaluate_failure_single_error_diagnostic query_err root0 "file.js"
    ⟨"syntax error at line 4"⟩ rfl⟩

/-- Helper: with the two-argument shape, `register_diagnostic` runs its
emitting tail. -/
theorem register_diagnostic_of_shape_two
    (args : List (Option GritPattern)) (context : List RuleDiagnostic)
    (s m : GritResolvedPattern)
    (h : GritResolvedPattern.from_patterns args =
      Except.ok [some s, some m, none, none, none]) :
    register_diagnostic args context = register_diagnostic_emit s m context := by
  simp [register_diagnostic, h]

/-- Helper: with the five-argument shape, `register_diagnostic` runs its
emitting tail. -/
theorem register_diagnostic_of_shape_five
    (args : List (Option GritPattern)) (context : List RuleDiagnostic)
    (s m f c a : GritResolvedPattern)
    (h : GritResolvedPattern.from_patterns args =
      Except.ok [some s, some m, some f, some c, some a]) :
    register_diagnostic args context = register_diagnostic_emit s m context := by
  simp [register_diagnostic, h]

/-- Helper: exhaustive case analysis of `register_diagnostic` over the
resolved argument list, mirroring the source's arity `match`. -/
theorem register_diagnostic_cases
    (args : List (Option GritPattern)) (context : List RuleDiagnostic)
    (resolved : List (Option GritResolvedPattern))
    (h : GritResolvedPattern.from_patterns args = Except.ok resolved) :
    (∃ s m, resolved = [some s, some m, none, none, none] ∧
      register_diagnostic args context = register_diagnostic_emit s m context) ∨
    (∃ s m f c a, resolved = [some s, some m, some f, some c, some a] ∧
      register_diagnostic args context = register_diagnostic_emit s m context) ∨
    (register_diagnostic args context =
        Except.error register_diagnostic_arity_error ∧
      ¬(∃ s m, resolved = [some s, some m, none, none, none]) ∧
      ¬(∃ s m f c a, resolved = [some s, some m, some f, some c, some a])) := by
  unfold register_diagnostic
  rw [h]
  split
  next e heq => exact absurd heq (by simp)
  next resolved2 heq =>
    injection heq with heq2
    subst heq2
    split
    next s m => exact Or.inl ⟨s, m, rfl, rfl⟩
    next s m f c a => exact Or.inr (Or.inl ⟨s, m, f, c, a, rfl, rfl⟩)
    next h1 h2 =>
      refine Or.inr (Or.inr ⟨rfl, ?_, ?_⟩)
      · rintro ⟨s, m, he⟩
        exact h1 s m he
      · rintro ⟨s, m, f, c, a, he⟩
        exact h2 s m f c a he

/-- C2: given successful argument resolution, `register_diagnostic` succeeds
if and only if exactly span and message are present with the last three
absent, or all five arguments are present; any other combination yields the
pattern error with exactly the stated arity message. -/
theorem register_diagnostic_arity_check
    (args : List (Option GritPattern)) (context : List RuleDiagnostic)
    (resolved : List (Option GritResolvedPattern))
    (h : GritResolvedPattern.from_patterns args = Except.ok resolved) :
    ((∃ out, register_diagnostic args context = Except.ok out) ↔
      ((∃ s m, resolved = [some s, some m, none, none, none]) ∨
       (∃ s m f c a, resolved = [some s, some m, some f, some c, some a]))) ∧
    (¬((∃ s m, resolved = [some s, some m, none, none, none]) ∨
       (∃ s m f c a, resolved = [some s, some m, some f, some c, some a])) →
      register_diagnostic args context = Except.error
        (GritPatternError.new "register_diagnostic() takes 2 or 5 arguments: span and message, and optional fixer_description, category and applicability")) := by
  rcases register_diagnostic_cases args context resolved h with
    ⟨s, m, rfl, he⟩ | ⟨s, m, f, c, a, rfl, he⟩ | ⟨he, hn1, hn2⟩
  · exact ⟨⟨fun _ => Or.inl ⟨s, m, rfl⟩, fun _ => ⟨_, he⟩⟩,
      fun hn => absurd (Or.inl ⟨s, m, rfl⟩) hn⟩
  · exact ⟨⟨fun _ => Or.inr ⟨s, m, f, c, a, rfl⟩, fun _ => ⟨_, he⟩⟩,
      fun hn => absurd (Or.inr ⟨s, m, f, c, a, rfl⟩) hn⟩
  · constructor
    · constructor
      · rintro ⟨out, hout⟩
        rw [he] at hout
        simp at hout
      · rintro (hs | hs)
        · exact (hn1 hs).elim
        · exact (hn2 hs).elim
    · intro _
      exact he

/-- Witness for C2: the two-argument shape succeeds on concrete arguments. -/
theorem register_diagnostic_arity_check_witness :
    GritResolvedPattern.from_patterns args_two =
      Except.ok [some span_value, some message_value, none, none, none] ∧
    ∃ out, register_diagnostic args_two [] = Except.ok out :=
  ⟨rfl, (register_diagnostic_arity_check args_two []
      [some span_value, some message_value, none, none, none] rfl).1.mpr
    (Or.inl ⟨span_value, message_value, rfl⟩)⟩

/-- C5: on every successful invocation, `register_diagnostic` returns the
span-argument pattern itself, unchanged — it is not replaced by the
resolved byte range or any new value, so pattern composition downstream is
unaffected. -/
theorem register_diagnostic_returns_span_argument
    (args : List (Option GritPattern)) (context : List RuleDiagnostic)
    (s m : GritResolvedPattern)
    (h : GritResolvedPattern.from_patterns args =
        Except.ok [some s, some m, none, none, none] ∨
      ∃ f c a, GritResolvedPattern.from_patterns args =
        Except.ok [some s, some m, some f, some c, some a]) :
    ∃ ds, register_diagnostic args context = Except.ok (s, ds) := by
  rcases h with h | ⟨f, c, a, h⟩
  · exact ⟨_, register_diagnostic_of_shape_two args context s m h⟩
  · exact ⟨_, register_diagnostic_of_shape_five args context s m f c a h⟩

/-- Witness for C5 on concrete two-shape arguments. -/
theorem register_diagnostic_returns_span_argument_witness :
    GritResolvedPattern.from_patterns args_two =
      Except.ok [some span_value, some message_value, none, none, none] ∧
    ∃ ds, register_diagnostic args_two [] = Except.ok (span_value, ds) :=
  ⟨rfl, register_diagnostic_returns_span_argument args_two [] span_value
    message_value (Or.inl rfl)⟩

/-- C6: the emitted diagnostic's position is the trimmed byte range of the
node bound as the span argument's last binding; when no node binding
exists, the position is `none` and the call still succeeds. -/
theorem register_diagnostic_span_resolution
    (args : List (Option GritPattern)) (context : List RuleDiagnostic)
    (s m : GritResolvedPattern)
    (h : GritResolvedPattern.from_patterns args =
        Except.ok [some s, some m, none, none, none] ∨
      ∃ f c a, GritResolvedPattern.from_patterns args =
        Except.ok [some s, some m, some f, some c, some a]) :
    ∃ d, register_diagnostic args context = Except.ok (s, context ++ [d]) ∧
      d.span = (s.get_last_binding.bind GritBinding.as_node).map
        GritTargetNode.text_trimmed_range := by
  rcases h with h | ⟨f, c, a, h⟩
  · exact ⟨_, register_diagnostic_of_shape_two args context s m h, rfl⟩
  · exact ⟨_, register_diagnostic_of_shape_five args context s m f c a h, rfl⟩

/-- Witness for C6: the concrete span bound to a node with trimmed range
`[10, 15)` yields that position. -/
theorem register_diagnostic_span_resolution_witness :
    GritResolvedPattern.from_patterns args_two =
      Except.ok [some span_value, some message_value, none, none, none] ∧
    (∃ d, register_diagnostic args_two [] = Except.ok (span_value, [] ++ [d]) ∧
      d.span = (span_value.get_last_binding.bind GritBinding.as_node).map
        GritTargetNode.text_trimmed_range) ∧
    (span_value.get_last_binding.bind GritBinding.as_node).map
      GritTargetNode.text_trimmed_range = some (TextRange.new 10 15) :=
  ⟨rfl, register_diagnostic_span_resolution args_two [] span_value
    message_value (Or.inl rfl), rfl⟩

/-- C9: every successful `register_diagnostic` call appends exactly one
diagnostic, of category `"plugin"`, to the evaluation's collection; and
every diagnostic `evaluate` emits is either a registered one (itself
produced with category `"plugin"`) or carries category `"plugin"`. -/
theorem register_diagnostic_appends_one_plugin_diagnostic :
    (∀ (args : List (Option GritPattern)) (context : List RuleDiagnostic) out,
      register_diagnostic args context = Except.ok out →
      ∃ d, out.2 = context ++ [d] ∧ d.category = "plugin") ∧
    (∀ (q : GritQuery) (root : AnyParse) (path : String)
      (result : GritQueryResult),
      q.execute { parse := root, path := path } = Except.ok result →
      (∀ d ∈ result.diagnostics, d.category = "plugin") →
      ∀ d ∈ AnalyzerGritPlugin.evaluate ⟨q⟩ root path, d.category = "plugin") ∧
    (∀ (q : GritQuery) (root : AnyParse) (path : String)
      (e : GritPatternError),
      q.execute { parse := root, path := path } = Except.error e →
      ∀ d ∈ AnalyzerGritPlugin.evaluate ⟨q⟩ root path, d.category = "plugin") := by
  refine ⟨?_, ?_, ?_⟩
  · intro args context out hout
    unfold register_diagnostic at hout
    split at hout
    · exact absurd hout (by simp)
    · split at hout
      · simp only [register_diagnostic_emit, Except.ok.injEq] at hout
        subst hout
        exact ⟨_, rfl, rfl⟩
      · simp only [register_diagnostic_emit, Except.ok.injEq] at hout
        subst hout
        exact ⟨_, rfl, rfl⟩
      · exact absurd hout (by simp)
  · intro q root path result hexec hreg d hd
    simp only [AnalyzerGritPlugin.evaluate, hexec, List.mem_append,
      List.mem_map] at hd
    rcases hd with ⟨log, _, rfl⟩ | hd
    · rfl
    · exact hreg d hd
  · intro q root path e hexec d hd
    simp only [AnalyzerGritPlugin.evaluate, hexec, List.mem_singleton] at hd
    subst hd
    rfl

/-- Witness for C9: a concrete successful call appends exactly one
`"plugin"`-category diagnostic to an empty collection. -/
theorem register_diagnostic_appends_one_plugin_diagnostic_witness :
    register_diagnostic args_two [] = Except.ok (span_value,
      [RuleDiagnostic.new "plugin" (some (TextRange.new 10 15)) "bad pattern"]) ∧
    ∃ d, (span_value,
        [RuleDiagnostic.new "plugin" (some (TextRange.new 10 15)) "bad pattern"]).2 =
      ([] : List RuleDiagnostic) ++ [d] ∧ d.category = "plugin" :=
  ⟨rfl, register_diagnostic_appends_one_plugin_diagnostic.1 args_two [] _ rfl⟩

/-- C7: in a successful execution, the `i`-th output diagnostic is built from
the `i`-th log entry: category `"plugin"`, position equal to the log's byte
range with start and end offsets preserved identically, verbose /
informational severity, and message `"<name> logged: <log.message>"`, where
the name defaults to `"anonymous"` when the query has none. -/
theorem evaluate_log_diagnostic_shape
    (q : GritQuery) (root : AnyParse) (path : String) (result : GritQueryResult)
    (i : Nat) (log : GritLog)
    (h : q.execute { parse := root, path := path } = Except.ok result)
    (hlog : result.logs[i]? = some log) :
    (AnalyzerGritPlugin.evaluate ⟨q⟩ root path)[i]? = some
      { category := "plugin",
        span := log.range.map (fun gr => TextRange.new gr.start_byte gr.end_byte),
        message := (q.name.getD "anonymous") ++ " logged: " ++ log.message,
        severity := Severity.information,
        isVerbose := true } := by
  have hi : i < result.logs.length := by
    rcases List.getElem?_eq_some_iff.mp hlog with ⟨hi, _⟩
    exact hi
  have he : AnalyzerGritPlugin.evaluate ⟨q⟩ root path =
      result.logs.map (fun log =>
        (RuleDiagnostic.new "plugin" (log.range.map from_grit_range)
          ((q.name.getD "anonymous") ++ " logged: " ++ log.message)).verbose)
      ++ result.diagnostics := by
    simp [AnalyzerGritPlugin.evaluate, h]
  rw [he, List.getElem?_append_left (by simpa using hi), List.getElem?_map, hlog]
  rfl

/-- Witness for C7: Scenario A — anonymous plugin, one log with range
`[10, 15)` and message `"found it"`. -/
theorem evaluate_log_diagnostic_shape_witness :
    query_anon.execute { parse := root0, path := "file.js" } =
      Except.ok result_one_log ∧
    result_one_log.logs[0]? = some { range := some ⟨10, 15⟩, message := "found it" } ∧
    (AnalyzerGritPlugin.evaluate ⟨query_anon⟩ root0 "file.js")[0]? = some
      { category := "plugin",
        span := (some (⟨10, 15⟩ : GritRange)).map
          (fun gr => TextRange.new gr.start_byte gr.end_byte),
        message := (query_anon.name.getD "anonymous") ++ " logged: " ++ "found it",
        severity := Severity.information,
        isVerbose := true } :=
  ⟨rfl, rfl, evaluate_log_diagnostic_shape query_anon root0 "file.js" result_one_log
    0 { range := some ⟨10, 15⟩, message := "found it" } rfl rfl⟩

/-- C10: a log entry whose byte range is absent yields a log-derived
diagnostic with no position — the absence is propagated, not an error and
not a default range. -/
theorem evaluate_log_without_range_has_no_span
    (q : GritQuery) (root : AnyParse) (path : String) (result : GritQueryResult)
    (i : Nat) (log : GritLog)
    (h : q.execute { parse := root, path := path } = Except.ok result)
    (hlog : result.logs[i]? = some log)
    (hr : log.range = none) :
    ∃ d, (AnalyzerGritPlugin.evaluate ⟨q⟩ root path)[i]? = some d ∧
      d.span = none := by
  have hi : i < result.logs.length := by
    rcases List.getElem?_eq_some_iff.mp hlog with ⟨hi, _⟩
    exact hi
  have he : AnalyzerGritPlugin.evaluate ⟨q⟩ root path =
      result.logs.map (fun log =>
        (RuleDiagnostic.new "plugin" (log.range.map from_grit_range)
          ((q.name.getD "anonymous") ++ " logged: " ++ log.message)).verbose)
      ++ result.diagnostics := by
    simp [AnalyzerGritPlugin.evaluate, h]
  refine ⟨(RuleDiagnostic.new "plugin" (log.range.map from_grit_range)
      ((q.name.getD "anonymous") ++ " logged: " ++ log.message)).verbose, ?_, ?_⟩
  · rw [he, List.getElem?_append_left (by simpa using hi), List.getElem?_map, hlog]
    rfl
  · simp [hr, RuleDiagnostic.new, RuleDiagnostic.verbose]

/-- Witness for C10: a rangeless log yields a diagnostic without position. -/
theorem evaluate_log_without_range_has_no_span_witness :
    query_no_range.execute { parse := root0, path := "file.js" } =
      Except.ok result_no_range ∧
    result_no_range.logs[0]? = some { range := none, message := "found it" } ∧
    ({ range := none, message := "found it" } : GritLog).range = none ∧
    ∃ d, (AnalyzerGritPlugin.evaluate ⟨query_no_range⟩ root0 "file.js")[0]? =
      some d ∧ d.span = none :=
  ⟨rfl, rfl, rfl, evaluate_log_without_range_has_no_span query_no_range root0
    "file.js" result_no_range 0 { range := none, message := "found it" } rfl rfl rfl⟩

/-- C8 (amended): `load` supplies the compile step with the raw plugin text,
the originating path, the hardcoded JavaScript target-language constant
(a `TODO` in the source notes it should become dynamic), and a builtin
table containing exactly one entry named `register_diagnostic` with formal
parameters span, message, fixer_description, category, applicability;
`load` fails with an I/O error when the file is unreadable and with a
compile error when compilation fails. -/
theorem load_compile_contract
    (compile_pattern : CompileArgs → Except String GritQuery)
    (fs : FileSystem) (path source : String) :
    (load_compile_request source path).source = source ∧
    (load_compile_request source path).path = some path ∧
    (load_compile_request source path).lang = GritTargetLanguage.JsTargetLanguage ∧
    (load_compile_request source path).builtins.map BuiltInFunction.name =
      ["register_diagnostic"] ∧
    (load_compile_request source path).builtins.map BuiltInFunction.params =
      [["span", "message", "fixer_description", "category", "applicability"]] ∧
    (∀ e, fs.read_file_from_path path = Except.error e →
      AnalyzerGritPlugin.load compile_pattern fs path =
        Except.error (PluginDiagnostic.IoError e)) ∧
    (∀ e, fs.read_file_from_path path = Except.ok source →
      compile_pattern (load_compile_request source path) = Except.error e →
      AnalyzerGritPlugin.load compile_pattern fs path =
        Except.error (PluginDiagnostic.CompileError e)) := by
  refine ⟨rfl, rfl, rfl, rfl, rfl, ?_, ?_⟩
  · intro e he
    simp [AnalyzerGritPlugin.load, he]
  · intro e hr hc
    simp [AnalyzerGritPlugin.load, hr, hc]

/-- Witness for C8 (amended): an unreadable file surfaces as an I/O error. -/
theorem load_compile_contract_witness :
    fs_bad.read_file_from_path "a.grit" = Except.error "file not found" ∧
    AnalyzerGritPlugin.load compile_fail fs_bad "a.grit" =
      Except.error (PluginDiagnostic.IoError "file not found") :=
  ⟨rfl, (load_compile_contract compile_fail fs_bad "a.grit"
    "plugin source").2.2.2.2.2.1 "file not found" rfl⟩

/-- Counterexample to C8 as stated: the target-language selector `load`
passes to the compile step is the fixed JavaScript constant for every
input — a hardcoded constant, not an externally configured value. -/
theorem load_target_language_not_configured :
    (load_compile_request "plugin source" "a.grit").lang =
      GritTargetLanguage.JsTargetLanguage ∧
    (load_compile_request "other source" "b.grit").lang =
      GritTargetLanguage.JsTargetLanguage ∧
    GritTargetLanguage.JsTargetLanguage ≠ GritTargetLanguage.CssTargetLanguage :=
  ⟨rfl, rfl, by decide⟩

end BiomeGrit
